import Mathlib

/-! Shallow embedding of `src/bonus_auto_persist.py` (brettschneider/python-descriptors):
a field-level JSON persistence engine built from Python descriptors.

Modelling conventions:
* Python values visible to this module are modelled by `PyVal` (`None`, `bool`,
  `int`, `str`, `list`, `set`); a `set` is the stock example of a value that
  `json.dump` rejects.
* Python `dict`s are modelled as association lists in insertion order, with the
  CPython update rule: assigning to an existing key keeps its position,
  assigning to a fresh key appends.  The JSON text produced by `json.dump` is
  determined by this order, so "same document on disk" is list equality.
* The filesystem is a function from filename to optional file content; a file
  holds either a valid JSON document or `invalid` (a truncated / partially
  written file that `json.load` cannot parse).
* A raised exception is modelled as `Except.error ()` for reads and as
  `ok := false` for writes (the write result also carries the filesystem left
  behind, since `open(filename, "w")` truncates before `json.dump` runs).
-/

namespace AutoPersist

/-- Python values, as far as this module can observe them. -/
inductive PyVal where
  | none : PyVal
  | bool : Bool → PyVal
  | int : Int → PyVal
  | str : String → PyVal
  | list : List PyVal → PyVal
  | set : List PyVal → PyVal

/-- Python truthiness (`if value:`) for the values of `PyVal`. -/
def truthy : PyVal → Bool
  | .none => false
  | .bool b => b
  | .int n => n ≠ 0
  | .str s => s ≠ ""
  | .list xs => !xs.isEmpty
  | .set xs => !xs.isEmpty

mutual
/-- Python `repr`.  For the scalar values it agrees with `str`; string
escaping inside nested `repr`s (quotes, backslashes) is not modelled. -/
def pyRepr : PyVal → String
  | .none => "None"
  | .bool true => "True"
  | .bool false => "False"
  | .int n => toString n
  | .str s => "'" ++ s ++ "'"
  | .list xs => "[" ++ pyReprSep xs ++ "]"
  | .set [] => "set()"
  | .set (x :: xs) => "\x7b" ++ pyReprSep (x :: xs) ++ "\x7d"

/-- Comma-separated `repr`s of the elements, as Python prints containers. -/
def pyReprSep : List PyVal → String
  | [] => ""
  | [x] => pyRepr x
  | x :: y :: xs => pyRepr x ++ ", " ++ pyReprSep (y :: xs)
end

/-- Python `str(value)`: the identity on strings, `repr` otherwise. -/
def pyStr : PyVal → String
  | .str s => s
  | v => pyRepr v

mutual
/-- Whether `json.dump` accepts the value (`set`s are rejected with
`TypeError`, everything else here serializes). -/
def serializable : PyVal → Bool
  | .none => true
  | .bool _ => true
  | .int _ => true
  | .str _ => true
  | .list xs => serializableAll xs
  | .set _ => false

/-- All elements of the list serialize. -/
def serializableAll : List PyVal → Bool
  | [] => true
  | x :: xs => serializable x && serializableAll xs
end

/-- A record: one JSON object mapping field names to values, in insertion
order (Python `dict`). -/
abbrev Record := List (String × PyVal)

/-- A document: the top-level JSON object mapping record keys to records,
in insertion order (Python `dict`). -/
abbrev Document := List (String × Record)

/-- Model of `d.get(k, default)` without the default: first binding of `k`, if any. -/
def dictGet {α : Type} : List (String × α) → String → Option α
  | [], _ => Option.none
  | kv :: rest, k => if kv.1 = k then some kv.2 else dictGet rest k

/-- Model of `d[k] = v` on a CPython dict: replace in place if the key exists,
append otherwise. -/
def dictSet {α : Type} : List (String × α) → String → α → List (String × α)
  | [], k, v => [(k, v)]
  | kv :: rest, k, v => if kv.1 = k then (k, v) :: rest else kv :: dictSet rest k v

/-- Every field value of the record is JSON-serializable. -/
def recSerializable : Record → Bool
  | [] => true
  | kv :: rest => serializable kv.2 && recSerializable rest

/-- Every record of the document is JSON-serializable. -/
def docSerializable : Document → Bool
  | [] => true
  | kd :: rest => recSerializable kd.2 && docSerializable rest

/-- Content of one file: a parseable JSON document, or a truncated /
partially written file that `json.load` rejects. -/
inductive FileContent where
  | valid : Document → FileContent
  | invalid : FileContent

/-- The filesystem: each filename either holds content or does not exist. -/
def FS : Type := String → Option FileContent

/-- Model of `_load_records(filename)`: returns the parsed document, `{}` when the
file does not exist (`FileNotFoundError` is caught), and raises
(`Option.none`) when the file holds malformed JSON. -/
def load_records (fs : FS) (filename : String) : Option Document :=
  match fs filename with
  | Option.none => some []
  | some (.valid d) => some d
  | some .invalid => Option.none

/-- Result of a write attempt: the filesystem left behind, and whether the
call returned normally (`ok = false` models a propagated exception). -/
structure SetResult where
  fs : FS
  ok : Bool

/-- Model of `_save_records(filename, records)`: `open(filename, "w")` truncates the
file first, then `json.dump` streams the document into it.  If the document
serializes the file ends up holding it; if `json.dump` raises `TypeError`
midway the file is left truncated / partially written (`invalid`). -/
def save_records (fs : FS) (filename : String) (records : Document) : SetResult :=
  if docSerializable records then
    ⟨fun f => if f = filename then some (.valid records) else fs f, true⟩
  else
    ⟨fun f => if f = filename then some .invalid else fs f, false⟩

/-- The descriptor tag of a class attribute: which of the module's
descriptor classes it is an instance of (`other` covers everything else in
`__class__.__dict__`). -/
inductive Descr where
  | jsonFilename : Descr
  | recordId : Descr
  | field : Descr
  | other : Descr
deriving DecidableEq, Repr

/-- An entity's class: its `__dict__` as (attribute name, descriptor tag)
pairs in declaration order. -/
structure PyClass where
  attrs : List (String × Descr)

/-- An entity: its class plus its instance `__dict__` (where
`IdentityDescriptor` stores the location / identity values). -/
structure Instance where
  cls : PyClass
  dict : List (String × PyVal)

/-- First attribute of the class carrying the given tag, in declaration
order (the `for attr_name, attr_value in instance.__class__.__dict__.items()`
loops of `_json_filename` / `_record_id`). -/
def findTagged : List (String × Descr) → Descr → Option String
  | [], _ => Option.none
  | a :: rest, d => if a.2 = d then some a.1 else findTagged rest d

/-- Model of `IdentityDescriptor.__get__`: `instance.__dict__.get(self.name)`,
i.e. `None` when the attribute was never assigned. -/
def IdentityDescriptor.get (inst : Instance) (name : String) : PyVal :=
  (dictGet inst.dict name).getD PyVal.none

/-- Model of `IdentityDescriptor.__set__`: `instance.__dict__[self.name] = value`. -/
def IdentityDescriptor.set (inst : Instance) (name : String) (value : PyVal) : Instance :=
  ⟨inst.cls, dictSet inst.dict name value⟩

/-- Model of `_json_filename(instance)`: current value of the first
`JsonFilename`-tagged attribute, `Option.none` when no attribute is tagged
(Python returns `None` in that case; the value itself may also be `None`). -/
def json_filename (inst : Instance) : Option PyVal :=
  (findTagged inst.cls.attrs .jsonFilename).map (IdentityDescriptor.get inst)

/-- Model of `_record_id(instance)`: `str()` of the current value of the first
`RecordId`-tagged attribute, `Option.none` when no attribute is tagged. -/
def record_id (inst : Instance) : Option String :=
  (findTagged inst.cls.attrs .recordId).map (fun n => pyStr (IdentityDescriptor.get inst n))

/-- Truthiness of `_json_filename(instance)` as tested by `Field.__get__` /
`Field.__set__`. -/
def jfTruthy (inst : Instance) : Bool :=
  match json_filename inst with
  | Option.none => false
  | some v => truthy v

/-- Truthiness of `_record_id(instance)` as tested by `Field.__get__` /
`Field.__set__` (a string is truthy iff nonempty). -/
def ridTruthy (inst : Instance) : Bool :=
  match record_id inst with
  | Option.none => false
  | some s => s ≠ ""

/-- The filename `open()` can use: the location value must be a string.
(CPython would treat an `int` as a file descriptor and reject other types;
neither touches a file named by the value, and both are modelled as an
error here.) -/
def asFilename : PyVal → Option String
  | .str s => some s
  | _ => Option.none

/-- Model of `Field.__get__`: when location and record id are truthy, load the
document, look up the record (missing record = `{}`), and return the field
value with `None` as default; otherwise return `None`.  `Except.error ()`
models a propagated exception (unusable location / malformed JSON). -/
def Field.get (name : String) (inst : Instance) (fs : FS) : Except Unit PyVal :=
  if jfTruthy inst && ridTruthy inst then
    match asFilename ((json_filename inst).getD PyVal.none) with
    | Option.none => .error ()
    | some fn =>
      match load_records fs fn with
      | Option.none => .error ()
      | some all_records =>
        let record := (dictGet all_records ((record_id inst).getD "")).getD []
        .ok ((dictGet record name).getD PyVal.none)
  else
    .ok PyVal.none

/-- Model of `Field.__set__`: when location and record id are truthy, load the
document, copy-or-create the record, set the field, store the record back
and save the whole document; otherwise do nothing. -/
def Field.set (name : String) (inst : Instance) (value : PyVal) (fs : FS) : SetResult :=
  if jfTruthy inst && ridTruthy inst then
    match asFilename ((json_filename inst).getD PyVal.none) with
    | Option.none => ⟨fs, false⟩
    | some fn =>
      match load_records fs fn with
      | Option.none => ⟨fs, false⟩
      | some all_records =>
        let rid := (record_id inst).getD ""
        let record := (dictGet all_records rid).getD []
        let record := dictSet record name value
        let all_records := dictSet all_records rid record
        save_records fs fn all_records
  else
    ⟨fs, true⟩

/-- The `Person` class of the module: one `JsonFilename` attribute, one
`RecordId` attribute, three `Field` attributes, in declaration order. -/
def personCls : PyClass :=
  ⟨[("filename", .jsonFilename), ("person_id", .recordId),
    ("name", .field), ("email", .field), ("age", .field)]⟩

/-- A person bound to `people.json` / `person-1`
(`Person("people.json", "person-1")`). -/
def inst1 : Instance :=
  ⟨personCls, [("filename", .str "people.json"), ("person_id", .str "person-1")]⟩

/-- A person whose identity was left unset (`Person("people.json")`:
`__init__` stores `person_id = None`). -/
def instNone : Instance :=
  ⟨personCls, [("filename", .str "people.json"), ("person_id", .none)]⟩

/-- A person whose identity is the integer `42`. -/
def inst42int : Instance :=
  ⟨personCls, [("filename", .str "people.json"), ("person_id", .int 42)]⟩

/-- A person whose identity is the string `"42"`. -/
def inst42str : Instance :=
  ⟨personCls, [("filename", .str "people.json"), ("person_id", .str "42")]⟩

/-- A class that (ill-advisedly) declares two `JsonFilename` attributes and
two `RecordId` attributes. -/
def dupCls : PyClass :=
  ⟨[("fileA", .jsonFilename), ("fileB", .jsonFilename),
    ("idA", .recordId), ("idB", .recordId), ("name", .field)]⟩

/-- An instance of `dupCls` with all four attributes set to distinct values. -/
def instDup : Instance :=
  ⟨dupCls, [("fileA", .str "a.json"), ("fileB", .str "b.json"),
            ("idA", .str "ka"), ("idB", .str "kb")]⟩

/-- The empty filesystem: no file exists. -/
def fs0 : FS := fun _ => Option.none

/-- A filesystem whose `people.json` holds one record `person-1` with a
single field `email`; the field `name` was never written. -/
def fs1 : FS := fun g =>
  if g = "people.json" then some (.valid [("person-1", [("email", .str "e")])])
  else Option.none

/-- Like `fs1`, but with the field `name` explicitly set to `null`. -/
def fsNull : FS := fun g =>
  if g = "people.json" then
    some (.valid [("person-1", [("email", .str "e"), ("name", .none)])])
  else Option.none

/-! Dictionary lemmas. -/

theorem dictGet_dictSet_self {α : Type} (d : List (String × α)) (k : String) (v : α) :
    dictGet (dictSet d k v) k = some v := by
  induction d with
  | nil => simp [dictSet, dictGet]
  | cons kv rest ih =>
    by_cases h : kv.1 = k
    · simp [dictSet, dictGet, h]
    · simp [dictSet, dictGet, h, ih]

theorem dictGet_dictSet_ne {α : Type} (d : List (String × α)) (k k' : String) (v : α)
    (h : k' ≠ k) : dictGet (dictSet d k v) k' = dictGet d k' := by
  induction d with
  | nil => simp [dictSet, dictGet, Ne.symm h]
  | cons kv rest ih =>
    by_cases hkv : kv.1 = k
    · subst hkv
      simp [dictSet, dictGet, Ne.symm h]
    · simp [dictSet, dictGet, hkv, ih]

theorem dictSet_dictSet_self {α : Type} (d : List (String × α)) (k : String) (v w : α) :
    dictSet (dictSet d k v) k w = dictSet d k w := by
  induction d with
  | nil => simp [dictSet]
  | cons kv rest ih =>
    by_cases h : kv.1 = k
    · simp [dictSet, h]
    · simp [dictSet, h, ih]

/-! Serializability lemmas. -/

theorem recSerializable_of_dictGet (d : Document) (k : String) (r : Record)
    (hd : docSerializable d = true) (h : dictGet d k = some r) :
    recSerializable r = true := by
  induction d with
  | nil => simp [dictGet] at h
  | cons kd rest ih =>
    simp only [docSerializable, Bool.and_eq_true] at hd
    by_cases hk : kd.1 = k
    · simp only [dictGet, hk, if_pos] at h
      cases h
      exact hd.1
    · simp only [dictGet, hk, if_neg, if_false] at h
      exact ih hd.2 h

theorem recSerializable_dictSet (r : Record) (k : String) (v : PyVal)
    (hr : recSerializable r = true) (hv : serializable v = true) :
    recSerializable (dictSet r k v) = true := by
  induction r with
  | nil => simp [dictSet, recSerializable, hv]
  | cons kv rest ih =>
    simp only [recSerializable, Bool.and_eq_true] at hr
    by_cases h : kv.1 = k
    · simp [dictSet, h, recSerializable, hv, hr.2]
    · simp [dictSet, h, recSerializable, hr.1, ih hr.2]

theorem recSerializable_dictSet_false (r : Record) (k : String) (v : PyVal)
    (hv : serializable v = false) :
    recSerializable (dictSet r k v) = false := by
  induction r with
  | nil => simp [dictSet, recSerializable, hv]
  | cons kv rest ih =>
    by_cases h : kv.1 = k
    · simp [dictSet, h, recSerializable, hv]
    · simp [dictSet, h, recSerializable, ih]

theorem docSerializable_dictSet (d : Document) (k : String) (r : Record)
    (hd : docSerializable d = true) (hr : recSerializable r = true) :
    docSerializable (dictSet d k r) = true := by
  induction d with
  | nil => simp [dictSet, docSerializable, hr]
  | cons kd rest ih =>
    simp only [docSerializable, Bool.and_eq_true] at hd
    by_cases h : kd.1 = k
    · simp [dictSet, h, docSerializable, hr, hd.2]
    · simp [dictSet, h, docSerializable, hd.1, ih hd.2]

theorem docSerializable_dictSet_false (d : Document) (k : String) (r : Record)
    (hr : recSerializable r = false) :
    docSerializable (dictSet d k r) = false := by
  induction d with
  | nil => simp [dictSet, docSerializable, hr]
  | cons kd rest ih =>
    by_cases h : kd.1 = k
    · simp [dictSet, h, docSerializable, hr]
    · simp [dictSet, h, docSerializable, ih]

/-! Unfolding lemmas for `Field.get` / `Field.set` on a resolved entity. -/

theorem jfTruthy_of_str (inst : Instance) (f : String)
    (hjf : json_filename inst = some (.str f)) (hf : f ≠ "") : jfTruthy inst = true := by
  simp [jfTruthy, hjf, truthy, hf]

theorem ridTruthy_of_ne (inst : Instance) (k : String)
    (hrid : record_id inst = some k) (hk : k ≠ "") : ridTruthy inst = true := by
  simp [ridTruthy, hrid, hk]

theorem get_eq_of_resolved (F : String) (inst : Instance) (fs : FS) (f k : String)
    (d : Document)
    (hjf : json_filename inst = some (.str f)) (hf : f ≠ "")
    (hrid : record_id inst = some k) (hk : k ≠ "")
    (hload : load_records fs f = some d) :
    Field.get F inst fs = .ok ((dictGet ((dictGet d k).getD []) F).getD PyVal.none) := by
  simp [Field.get, jfTruthy_of_str inst f hjf hf, ridTruthy_of_ne inst k hrid hk,
    hjf, hrid, asFilename, hload]

theorem set_eq_of_resolved (F : String) (inst : Instance) (V : PyVal) (fs : FS)
    (f k : String) (d : Document)
    (hjf : json_filename inst = some (.str f)) (hf : f ≠ "")
    (hrid : record_id inst = some k) (hk : k ≠ "")
    (hload : load_records fs f = some d) :
    Field.set F inst V fs =
      save_records fs f (dictSet d k (dictSet ((dictGet d k).getD []) F V)) := by
  simp [Field.set, jfTruthy_of_str inst f hjf hf, ridTruthy_of_ne inst k hrid hk,
    hjf, hrid, asFilename, hload]

theorem save_records_of_ser (fs : FS) (f : String) (rs : Document)
    (h : docSerializable rs = true) :
    save_records fs f rs = ⟨fun g => if g = f then some (.valid rs) else fs g, true⟩ := by
  simp [save_records, h]

theorem save_records_fs_ne (fs : FS) (f : String) (rs : Document) (g : String)
    (h : g ≠ f) : (save_records fs f rs).fs g = fs g := by
  by_cases hs : docSerializable rs = true <;> simp [save_records, hs, h]

theorem access_congr (i1 i2 : Instance) (F : String) (V : PyVal) (fs : FS)
    (h1 : json_filename i1 = json_filename i2)
    (h2 : record_id i1 = record_id i2) :
    Field.get F i1 fs = Field.get F i2 fs ∧ Field.set F i1 V fs = Field.set F i2 V fs := by
  constructor
  · simp only [Field.get, jfTruthy, ridTruthy, h1, h2]
  · simp only [Field.set, jfTruthy, ridTruthy, h1, h2]

theorem findTagged_append (l1 l2 : List (String × Descr)) (a : String) (d : Descr)
    (h : ∀ x ∈ l1, x.2 ≠ d) :
    findTagged (l1 ++ (a, d) :: l2) d = some a := by
  induction l1 with
  | nil => simp [findTagged]
  | cons x rest ih =>
    have hx : x.2 ≠ d := h x (List.mem_cons_self x rest)
    simp only [List.cons_append, findTagged, hx, if_neg, if_false]
    exact ih fun y hy => h y (List.mem_cons_of_mem x hy)

/-! Claim theorems. -/

/-- C1: Round-trip.  On an entity whose location resolves to a nonempty
filename string `f` and whose record id resolves to a nonempty key `k`,
with `f` currently loadable (missing file or serializable document),
performing `Field.__set__` of a JSON-serializable value `V` on field `F`
and then `Field.__get__` of field `F` returns `V`. -/
theorem C1_write_read_round_trip (F : String) (inst : Instance) (V : PyVal) (fs : FS)
    (f k : String) (d : Document)
    (hjf : json_filename inst = some (.str f)) (hf : f ≠ "")
    (hrid : record_id inst = some k) (hk : k ≠ "")
    (hload : load_records fs f = some d) (hd : docSerializable d = true)
    (hV : serializable V = true) :
    Field.get F inst ((Field.set F inst V fs).fs) = .ok V := by
  have hrec : recSerializable ((dictGet d k).getD []) = true := by
    cases hg : dictGet d k with
    | none => simp [recSerializable]
    | some r => simpa using recSerializable_of_dictGet d k r hd hg
  have hdoc : docSerializable (dictSet d k (dictSet ((dictGet d k).getD []) F V)) = true :=
    docSerializable_dictSet _ _ _ hd (recSerializable_dictSet _ _ _ hrec hV)
  rw [set_eq_of_resolved F inst V fs f k d hjf hf hrid hk hload,
      save_records_of_ser _ _ _ hdoc]
  rw [get_eq_of_resolved F inst _ f k (dictSet d k (dictSet ((dictGet d k).getD []) F V))
      hjf hf hrid hk (by simp [load_records])]
  simp [dictGet_dictSet_self]

/-- Witness for C1: writing `"James Schue"` to the `name` field of
`person-1` in an empty filesystem and reading it back returns it. -/
theorem C1_witness :
    json_filename inst1 = some (.str "people.json")
    ∧ record_id inst1 = some "person-1"
    ∧ load_records fs0 "people.json" = some []
    ∧ docSerializable [] = true
    ∧ serializable (.str "James Schue") = true
    ∧ Field.get "name" inst1 ((Field.set "name" inst1 (.str "James Schue") fs0).fs)
        = .ok (.str "James Schue") :=
  ⟨rfl, rfl, rfl, rfl, rfl,
   C1_write_read_round_trip "name" inst1 (.str "James Schue") fs0 "people.json" "person-1" []
     rfl (by decide) rfl (by decide) rfl rfl rfl⟩

/-- C2: Isolation / frame effect.  A successful write of field `F` on
record `k` (a) leaves every other file untouched, (b) persists a document
in which every record other than `k` is unchanged, and (c) within record
`k` every field other than `F` is unchanged: the write loads the full
document, mutates exactly one field of exactly one record, and saves the
whole document back. -/
theorem C2_write_isolation (F : String) (inst : Instance) (V : PyVal) (fs : FS)
    (f k : String) (d : Document)
    (hjf : json_filename inst = some (.str f)) (hf : f ≠ "")
    (hrid : record_id inst = some k) (hk : k ≠ "")
    (hload : load_records fs f = some d) (hd : docSerializable d = true)
    (hV : serializable V = true) :
    (∀ g, g ≠ f → (Field.set F inst V fs).fs g = fs g)
    ∧ ∃ d', load_records (Field.set F inst V fs).fs f = some d'
        ∧ (∀ k2, k2 ≠ k → dictGet d' k2 = dictGet d k2)
        ∧ (∀ F2, F2 ≠ F →
            dictGet ((dictGet d' k).getD []) F2 = dictGet ((dictGet d k).getD []) F2) := by
  have hrec : recSerializable ((dictGet d k).getD []) = true := by
    cases hg : dictGet d k with
    | none => simp [recSerializable]
    | some r => simpa using recSerializable_of_dictGet d k r hd hg
  have hdoc : docSerializable (dictSet d k (dictSet ((dictGet d k).getD []) F V)) = true :=
    docSerializable_dictSet _ _ _ hd (recSerializable_dictSet _ _ _ hrec hV)
  rw [set_eq_of_resolved F inst V fs f k d hjf hf hrid hk hload,
      save_records_of_ser _ _ _ hdoc]
  refine ⟨fun g hg => by simp [hg], dictSet d k (dictSet ((dictGet d k).getD []) F V),
    by simp [load_records], fun k2 hk2 => dictGet_dictSet_ne d k k2 _ hk2, fun F2 hF2 => ?_⟩
  rw [dictGet_dictSet_self]
  simp only [Option.getD_some]
  exact dictGet_dictSet_ne _ F F2 V hF2

/-- Witness for C2: writing `person-2`'s `name` into a document that holds
`person-1` leaves `person-1` (and every other file and field) unchanged. -/
theorem C2_witness :
    json_filename inst1 = some (.str "people.json")
    ∧ record_id inst1 = some "person-1"
    ∧ load_records fs1 "people.json" = some [("person-1", [("email", .str "e")])]
    ∧ docSerializable [("person-1", [("email", .str "e")])] = true
    ∧ serializable (.str "James Schue") = true
    ∧ ((∀ g, g ≠ "people.json" →
          (Field.set "name" inst1 (.str "James Schue") fs1).fs g = fs1 g)
      ∧ ∃ d', load_records (Field.set "name" inst1 (.str "James Schue") fs1).fs "people.json"
            = some d'
          ∧ (∀ k2, k2 ≠ "person-1" →
              dictGet d' k2 = dictGet [("person-1", [("email", .str "e")])] k2)
          ∧ (∀ F2, F2 ≠ "name" →
              dictGet ((dictGet d' "person-1").getD []) F2
                = dictGet ((dictGet [("person-1", [("email", .str "e")])] "person-1").getD [])
                    F2)) :=
  ⟨rfl, rfl, rfl, rfl, rfl,
   C2_write_isolation "name" inst1 (.str "James Schue") fs1 "people.json" "person-1"
     [("person-1", [("email", .str "e")])] rfl (by decide) rfl (by decide) rfl rfl rfl⟩

/-- C3: the claim fails on the code.  `Person("people.json")` leaves
`person_id` unset (`None`), but `_record_id` returns
`str(None) = "None"`, which is a truthy nonempty string, so the guard in
`Field.__set__` passes and the write proceeds: it creates `people.json`
with the field stored under record key `"None"`, instead of being a
silent no-op.  This theorem evaluates the model at that failing input. -/
theorem C3_unset_identity_still_writes :
    record_id instNone = some "None"
    ∧ ridTruthy instNone = true
    ∧ (Field.set "name" instNone (.str "Jay") fs0).fs "people.json"
        = some (.valid [("None", [("name", .str "Jay")])])
    ∧ fs0 "people.json" = Option.none :=
  ⟨rfl, rfl, rfl, rfl⟩

/-- C4: Missing-file tolerance.  When the resolved location names a file
that does not exist, `_load_records` returns the empty document, and
`Field.__get__` returns `None` (the absent value) for every record key
and field name, without raising. -/
theorem C4_missing_file_tolerance (F loc : String) (inst : Instance) (fs : FS)
    (hjf : json_filename inst = some (.str loc))
    (hfs : fs loc = Option.none) :
    load_records fs loc = some []
    ∧ Field.get F inst fs = .ok PyVal.none := by
  have hl : load_records fs loc = some [] := by simp [load_records, hfs]
  refine ⟨hl, ?_⟩
  by_cases hg : (jfTruthy inst && ridTruthy inst) = true
  · simp [Field.get, hg, hjf, asFilename, hl, dictGet]
  · simp [Field.get, hg]

/-- Witness for C4: reading `name` of `person-1` from the empty
filesystem yields the absent value `None` and raises nothing. -/
theorem C4_witness :
    json_filename inst1 = some (.str "people.json")
    ∧ fs0 "people.json" = Option.none
    ∧ (load_records fs0 "people.json" = some []
       ∧ Field.get "name" inst1 fs0 = .ok PyVal.none) :=
  ⟨rfl, rfl, C4_missing_file_tolerance "name" "people.json" inst1 fs0 rfl rfl⟩

/-- C5 (counterexample): the claim fails on the code.  Reading the
never-written field `name` of the existing record `person-1` returns
`PyVal.none` — the model of Python `None` / JSON `null` — and reading the
same field after it was explicitly set to `None` returns the identical
value, so the result IS null and the two cases are not distinguishable. -/
theorem C5_absent_reads_as_null :
    Field.get "name" inst1 fs1 = .ok PyVal.none
    ∧ Field.get "name" inst1 fsNull = .ok PyVal.none :=
  ⟨rfl, rfl⟩

/-- C5 (amended): reading a field that was never written on an existing
record raises nothing and returns `None` (Python's null, the default of
`record.get(self.name, None)`); it is therefore identical to — not
distinguishable from — reading a field explicitly set to `None`. -/
theorem C5_amended_absent_returns_none (F : String) (inst : Instance) (fs : FS)
    (f k : String) (d : Document) (r : Record)
    (hjf : json_filename inst = some (.str f)) (hf : f ≠ "")
    (hrid : record_id inst = some k) (hk : k ≠ "")
    (hload : load_records fs f = some d)
    (hr : dictGet d k = some r) (hF : dictGet r F = Option.none) :
    Field.get F inst fs = .ok PyVal.none := by
  rw [get_eq_of_resolved F inst fs f k d hjf hf hrid hk hload]
  simp [hr, hF]

/-- Witness for the amended C5: `person-1` exists in `fs1` but its `name`
field was never written; the read returns `None`. -/
theorem C5_witness :
    json_filename inst1 = some (.str "people.json")
    ∧ record_id inst1 = some "person-1"
    ∧ load_records fs1 "people.json" = some [("person-1", [("email", .str "e")])]
    ∧ dictGet ([("person-1", [("email", PyVal.str "e")])] : Document) "person-1"
        = some [("email", PyVal.str "e")]
    ∧ dictGet [("email", PyVal.str "e")] "name" = Option.none
    ∧ Field.get "name" inst1 fs1 = .ok PyVal.none :=
  ⟨rfl, rfl, rfl, rfl, rfl,
   C5_amended_absent_returns_none "name" inst1 fs1 "people.json" "person-1"
     [("person-1", [("email", .str "e")])] [("email", .str "e")]
     rfl (by decide) rfl (by decide) rfl rfl rfl⟩

/-- C6 (counterexample): the claim fails on the code.  `_save_records`
opens the file with mode `"w"` (truncating it) before `json.dump`
serializes, so writing the unserializable value `set()` to a field of
`person-1` destroys the prior valid document at `people.json`: afterwards
the file holds an invalid partial write, not the prior document. -/
theorem C6_failed_write_destroys_prior :
    fs1 "people.json" = some (.valid [("person-1", [("email", .str "e")])])
    ∧ serializable (.set []) = false
    ∧ (Field.set "age" inst1 (.set []) fs1).fs "people.json" = some .invalid
    ∧ (Field.set "age" inst1 (.set []) fs1).ok = false
    ∧ (Field.set "age" inst1 (.set []) fs1).fs "people.json" ≠ fs1 "people.json" :=
  ⟨rfl, rfl, rfl, rfl, fun h => FileContent.noConfusion (Option.some.inj h)⟩

/-- C6 (amended): a write whose value cannot be serialized raises, and the
caller never observes it as a success; but because `open(filename, "w")`
truncates before `json.dump` runs, the prior document at the location is
replaced by an invalid partial file rather than left unchanged.  Other
files are untouched, and a write that fails earlier, at load time
(existing malformed JSON), does leave the filesystem unchanged. -/
theorem C6_amended_failed_write (F : String) (inst : Instance) (V : PyVal) (fs : FS)
    (f k : String) (d : Document)
    (hjf : json_filename inst = some (.str f)) (hf : f ≠ "")
    (hrid : record_id inst = some k) (hk : k ≠ "")
    (hload : load_records fs f = some d)
    (hV : serializable V = false) :
    (Field.set F inst V fs).fs f = some .invalid
    ∧ (Field.set F inst V fs).ok = false
    ∧ (∀ g, g ≠ f → (Field.set F inst V fs).fs g = fs g)
    ∧ (∀ fs' : FS, load_records fs' f = Option.none →
        Field.set F inst V fs' = ⟨fs', false⟩) := by
  have hser : docSerializable (dictSet d k (dictSet ((dictGet d k).getD []) F V)) = false :=
    docSerializable_dictSet_false _ _ _ (recSerializable_dictSet_false _ _ _ hV)
  have hset := set_eq_of_resolved F inst V fs f k d hjf hf hrid hk hload
  refine ⟨?_, ?_, ?_, ?_⟩
  · rw [hset]; simp [save_records, hser]
  · rw [hset]; simp [save_records, hser]
  · intro g hg; rw [hset]; exact save_records_fs_ne fs f _ g hg
  · intro fs' hload'
    simp [Field.set, jfTruthy_of_str inst f hjf hf, ridTruthy_of_ne inst k hrid hk,
      hjf, asFilename, hload']

/-- Witness for the amended C6: writing `set()` to `age` of `person-1`
over `fs1` leaves `people.json` invalid, reports the failure, and touches
no other file. -/
theorem C6_witness :
    json_filename inst1 = some (.str "people.json")
    ∧ record_id inst1 = some "person-1"
    ∧ load_records fs1 "people.json" = some [("person-1", [("email", .str "e")])]
    ∧ serializable (.set []) = false
    ∧ ((Field.set "age" inst1 (.set []) fs1).fs "people.json" = some .invalid
      ∧ (Field.set "age" inst1 (.set []) fs1).ok = false
      ∧ (∀ g, g ≠ "people.json" → (Field.set "age" inst1 (.set []) fs1).fs g = fs1 g)
      ∧ (∀ fs' : FS, load_records fs' "people.json" = Option.none →
          Field.set "age" inst1 (.set []) fs' = ⟨fs', false⟩)) :=
  ⟨rfl, rfl, rfl, rfl,
   C6_amended_failed_write "age" inst1 (.set []) fs1 "people.json" "person-1"
     [("person-1", [("email", .str "e")])] rfl (by decide) rfl (by decide) rfl rfl⟩

/-- C7: location and identity are resolved afresh on every access.
Assigning a new value to the (first) location-tagged attribute makes
`_json_filename` return exactly that value, assigning to the (first)
identity-tagged attribute makes `_record_id` return its `str()`, whatever
the attributes held before; and `Field.__get__` / `Field.__set__` depend
on the instance only through these two resolution functions, so
reassigning location or identity redirects all subsequent reads and
writes.  Nothing is cached: there is no other instance state involved. -/
theorem C7_resolution_is_dynamic (inst : Instance) (a b : String) (v w : PyVal)
    (ha : findTagged inst.cls.attrs .jsonFilename = some a)
    (hb : findTagged inst.cls.attrs .recordId = some b) :
    json_filename (IdentityDescriptor.set inst a v) = some v
    ∧ record_id (IdentityDescriptor.set inst b w) = some (pyStr w)
    ∧ (∀ (i1 i2 : Instance) (F : String) (V : PyVal) (fs : FS),
        json_filename i1 = json_filename i2 → record_id i1 = record_id i2 →
        Field.get F i1 fs = Field.get F i2 fs
        ∧ Field.set F i1 V fs = Field.set F i2 V fs) := by
  refine ⟨?_, ?_, fun i1 i2 F V fs h1 h2 => access_congr i1 i2 F V fs h1 h2⟩
  · simp [json_filename, IdentityDescriptor.set, ha, IdentityDescriptor.get,
      dictGet_dictSet_self]
  · simp [record_id, IdentityDescriptor.set, hb, IdentityDescriptor.get,
      dictGet_dictSet_self]

/-- Witness for C7 at `inst1`: reassigning `filename` and `person_id`
redirects resolution to the new values. -/
theorem C7_witness :
    findTagged inst1.cls.attrs .jsonFilename = some "filename"
    ∧ findTagged inst1.cls.attrs .recordId = some "person_id"
    ∧ (json_filename (IdentityDescriptor.set inst1 "filename" (.str "other.json"))
        = some (.str "other.json")
      ∧ record_id (IdentityDescriptor.set inst1 "person_id" (.str "person-9"))
        = some (pyStr (.str "person-9"))
      ∧ (∀ (i1 i2 : Instance) (F : String) (V : PyVal) (fs : FS),
          json_filename i1 = json_filename i2 → record_id i1 = record_id i2 →
          Field.get F i1 fs = Field.get F i2 fs
          ∧ Field.set F i1 V fs = Field.set F i2 V fs)) :=
  ⟨rfl, rfl,
   C7_resolution_is_dynamic inst1 "filename" "person_id"
     (.str "other.json") (.str "person-9") rfl rfl⟩

/-- C8: Idempotence.  For every field name, entity, value and starting
filesystem, writing the same (field, value) pair twice in succession
leaves exactly the filesystem of a single write — whatever branch the
write takes (silent no-op, unusable location, load failure, failed or
successful save). -/
theorem C8_double_write_idempotent (F : String) (inst : Instance) (V : PyVal) (fs : FS) :
    (Field.set F inst V ((Field.set F inst V fs).fs)).fs = (Field.set F inst V fs).fs := by
  by_cases hg : (jfTruthy inst && ridTruthy inst) = true
  · cases hasf : asFilename ((json_filename inst).getD PyVal.none) with
    | none => simp [Field.set, hg, hasf]
    | some fn =>
      cases hload : load_records fs fn with
      | none => simp [Field.set, hg, hasf, hload]
      | some d =>
        have h1 : Field.set F inst V fs =
            save_records fs fn
              (dictSet d ((record_id inst).getD "")
                (dictSet ((dictGet d ((record_id inst).getD "")).getD []) F V)) := by
          simp [Field.set, hg, hasf, hload]
        rw [h1]
        set k := (record_id inst).getD "" with hk
        set d2 := dictSet d k (dictSet ((dictGet d k).getD []) F V) with hd2
        by_cases hser : docSerializable d2 = true
        · rw [save_records_of_ser _ _ _ hser]
          have hload2 :
              load_records (fun g => if g = fn then some (.valid d2) else fs g) fn
                = some d2 := by
            simp [load_records]
          have h2 : Field.set F inst V (fun g => if g = fn then some (.valid d2) else fs g)
              = save_records (fun g => if g = fn then some (.valid d2) else fs g) fn
                  (dictSet d2 k (dictSet ((dictGet d2 k).getD []) F V)) := by
            simp [Field.set, hg, hasf, hload2, ← hk]
          have h3 : dictSet d2 k (dictSet ((dictGet d2 k).getD []) F V) = d2 := by
            rw [hd2, dictGet_dictSet_self]
            simp only [Option.getD_some]
            rw [dictSet_dictSet_self, dictSet_dictSet_self]
          rw [h2, h3, save_records_of_ser _ _ _ hser]
          funext g
          by_cases hgf : g = fn <;> simp [hgf]
        · have hsave : save_records fs fn d2
              = ⟨fun g => if g = fn then some FileContent.invalid else fs g, false⟩ := by
            simp [save_records, hser]
          rw [hsave]
          have hload2 :
              load_records (fun g => if g = fn then some FileContent.invalid else fs g) fn
                = Option.none := by
            simp [load_records]
          simp [Field.set, hg, hasf, hload2]
  · simp [Field.set, hg]

/-- C9: the record key used by reads and writes is `str()` of the current
identity value, whatever its type, so an entity whose identity is the
integer `n` addresses the same record as one whose identity is the string
`str(n)` — their reads agree on every filesystem; the location value, by
contrast, is returned by `_json_filename` as-is, with no conversion. -/
theorem C9_record_key_is_str_of_identity (i1 i2 : Instance) (b s : String) (n : Int)
    (hb1 : findTagged i1.cls.attrs .recordId = some b)
    (hb2 : findTagged i2.cls.attrs .recordId = some b)
    (h1 : IdentityDescriptor.get i1 b = .int n)
    (hs : toString n = s)
    (h2 : IdentityDescriptor.get i2 b = .str s)
    (hjf : json_filename i1 = json_filename i2) :
    record_id i1 = some s
    ∧ record_id i2 = some s
    ∧ (∀ (F : String) (fs : FS), Field.get F i1 fs = Field.get F i2 fs)
    ∧ (∀ (inst : Instance) (a : String),
        findTagged inst.cls.attrs .jsonFilename = some a →
        json_filename inst = some (IdentityDescriptor.get inst a)) := by
  have hr1 : record_id i1 = some s := by
    simp [record_id, hb1, h1, pyStr, pyRepr, hs]
  have hr2 : record_id i2 = some s := by
    simp [record_id, hb2, h2, pyStr]
  refine ⟨hr1, hr2, fun F fs => ?_, fun inst a ha => by simp [json_filename, ha]⟩
  exact (access_congr i1 i2 F PyVal.none fs hjf (hr1.trans hr2.symm)).1

/-- Witness for C9: identities `42 : int` and `"42" : str` resolve to the
same record key `"42"` and read identically. -/
theorem C9_witness :
    findTagged inst42int.cls.attrs .recordId = some "person_id"
    ∧ findTagged inst42str.cls.attrs .recordId = some "person_id"
    ∧ IdentityDescriptor.get inst42int "person_id" = .int 42
    ∧ toString (42 : Int) = "42"
    ∧ IdentityDescriptor.get inst42str "person_id" = .str "42"
    ∧ json_filename inst42int = json_filename inst42str
    ∧ (record_id inst42int = some "42"
      ∧ record_id inst42str = some "42"
      ∧ (∀ (F : String) (fs : FS), Field.get F inst42int fs = Field.get F inst42str fs)
      ∧ (∀ (inst : Instance) (a : String),
          findTagged inst.cls.attrs .jsonFilename = some a →
          json_filename inst = some (IdentityDescriptor.get inst a))) :=
  ⟨rfl, rfl, rfl, by decide, rfl, rfl,
   C9_record_key_is_str_of_identity inst42int inst42str "person_id" "42" 42
     rfl rfl rfl (by decide) rfl rfl⟩

/-- C10: when a class declares several `JsonFilename`-tagged (or several
`RecordId`-tagged) attributes, resolution uses the current value of the
first tagged attribute in declaration order and ignores all later ones:
`_json_filename` returns the first location attribute's value and
`_record_id` the `str()` of the first identity attribute's value, whatever
follows them in the class. -/
theorem C10_first_tagged_attribute_wins (inst : Instance)
    (l1 l2 : List (String × Descr)) (a : String)
    (hcls : inst.cls.attrs = l1 ++ (a, Descr.jsonFilename) :: l2)
    (hl1 : ∀ x ∈ l1, x.2 ≠ Descr.jsonFilename)
    (l1' l2' : List (String × Descr)) (b : String)
    (hcls' : inst.cls.attrs = l1' ++ (b, Descr.recordId) :: l2')
    (hl1' : ∀ x ∈ l1', x.2 ≠ Descr.recordId) :
    json_filename inst = some (IdentityDescriptor.get inst a)
    ∧ record_id inst = some (pyStr (IdentityDescriptor.get inst b)) := by
  constructor
  · simp [json_filename, hcls, findTagged_append l1 l2 a _ hl1]
  · simp [record_id, hcls', findTagged_append l1' l2' b _ hl1']

/-- Witness for C10 at `instDup`, whose class tags both `fileA`/`fileB` as
locations and both `idA`/`idB` as identities: resolution uses `fileA` and
`idA` and ignores `fileB` and `idB`. -/
theorem C10_witness :
    instDup.cls.attrs
      = [] ++ ("fileA", Descr.jsonFilename)
          :: [("fileB", .jsonFilename), ("idA", .recordId), ("idB", .recordId),
              ("name", .field)]
    ∧ (∀ x ∈ ([] : List (String × Descr)), x.2 ≠ Descr.jsonFilename)
    ∧ instDup.cls.attrs
        = [("fileA", .jsonFilename), ("fileB", .jsonFilename)]
            ++ ("idA", Descr.recordId) :: [("idB", .recordId), ("name", .field)]
    ∧ (∀ x ∈ [("fileA", Descr.jsonFilename), ("fileB", Descr.jsonFilename)],
        x.2 ≠ Descr.recordId)
    ∧ (json_filename instDup = some (IdentityDescriptor.get instDup "fileA")
      ∧ record_id instDup = some (pyStr (IdentityDescriptor.get instDup "idA")))
    ∧ json_filename instDup = some (.str "a.json")
    ∧ record_id instDup = some "ka" :=
  ⟨rfl, by decide, rfl, by decide,
   C10_first_tagged_attribute_wins instDup
     [] [("fileB", .jsonFilename), ("idA", .recordId), ("idB", .recordId), ("name", .field)]
     "fileA" rfl (by decide)
     [("fileA", .jsonFilename), ("fileB", .jsonFilename)]
     [("idB", .recordId), ("name", .field)] "idA" rfl (by decide),
   rfl, rfl⟩

end AutoPersist

